import Mathlib

/-!
Shallow embedding of the client-side orchestration core of the Legal-Analyser
frontend: the upload-and-analyze workflow, the semantic clause search handler,
the chatbot send handler, the similarity band classifiers, and the risk-matrix
percentage computation.  Scores that the source handles as JS numbers are
modelled as rationals; JS strings are modelled as Lean strings (document text,
which the source slices by code-unit index, is modelled as a list of
characters).  Each definition is translated directly from the corresponding
source function.
-/

namespace LegalAnalyser

/-- Requests the client can issue over the network, one constructor per
consumed endpoint shape that the modelled handlers use. -/
inductive Request where
  | upload (filename : String)
  | analyze (documentId : String)
  | search (documentId : String) (clauseText : String)
  | chat (documentId : String) (question : String)
      (documentText : List Char) (analysisSummary : String)
deriving DecidableEq

/-- Response to `POST /api/upload`: HTTP ok flag plus the parsed
`{document_id}` payload field. -/
structure UploadResponse where
  ok : Bool
  document_id : String

/-- Response to `POST /api/analyze/{id}`: HTTP ok flag, the raw body text
(read when not ok) and the parsed analysis payload (read when ok), the
latter kept abstract as a string. -/
structure AnalyzeResponse where
  ok : Bool
  text : String
  data : String

/-- Terminal page outcome of the upload-and-analyze workflow in
`AnalyzePage` (part_000): the early-validation error message, the caught
error message, or the stored analysis result. -/
inductive PageOutcome where
  | validationError (message : String)
  | failed (message : String)
  | complete (result : String)
deriving DecidableEq

/-- `handleUploadAndAnalyze` from `AnalyzePage` (part_000, lines 33-74).
Returns the ordered list of network requests issued and the final outcome.
With no file selected it sets the validation error and returns before any
request.  Otherwise it awaits the upload; a non-ok upload throws
`Upload failed` (caught, no analyze issued).  On ok it issues the analyze
call keyed by `uploadData.document_id`; a non-ok analyze reads the body
text and throws `Analysis failed: <text>`; on ok it stores the payload. -/
def handleUploadAndAnalyze (file : Option String)
    (uploadResp : UploadResponse) (analyzeResp : AnalyzeResponse) :
    List Request × PageOutcome :=
  match file with
  | none => ([], .validationError "Please select a file")
  | some f =>
    if uploadResp.ok = false then
      ([.upload f], .failed "Upload failed")
    else
      if analyzeResp.ok = false then
        ([.upload f, .analyze uploadResp.document_id],
          .failed ("Analysis failed: " ++ analyzeResp.text))
      else
        ([.upload f, .analyze uploadResp.document_id],
          .complete analyzeResp.data)

/-- JS `String.prototype.trim()`: strips leading and trailing whitespace.
Defined over the character list so that it evaluates by reduction. -/
def jsTrim (s : String) : String :=
  ⟨((s.data.dropWhile Char.isWhitespace).reverse.dropWhile
      Char.isWhitespace).reverse⟩

/-- Response to `POST /api/search/similar-clauses`: HTTP ok flag and the
parsed JSON body (`none` models a transport failure or an unparsable body,
i.e. the paths on which `fetch` or `response.json()` throws); the payload
is kept abstract as a string. -/
structure SearchResponse where
  ok : Bool
  json : Option String

/-- `handleSearch` from `SemanticClauseSearch` (part_002, lines 182-203).
An empty-after-trim query returns before any request.  Otherwise the
request is issued and the parsed body is stored unconditionally — the
source never reads `response.ok`; on a thrown error the previous results
are left in place. -/
def handleSearch (documentId query : String) (resp : SearchResponse)
    (prior : Option String) : List Request × Option String :=
  if jsTrim query = "" then ([], prior)
  else
    ([.search documentId query],
      match resp.json with
      | some data => some data
      | none => prior)

/-- Events observable at the semantic search client across one session:
a form submission with the current query text, or the arrival of a
response (tagged with the submission it answers, and carrying its parsed
payload). -/
inductive SearchEvent where
  | submit (query : String)
  | respond (reqId : Nat) (data : String)

/-- Mutable component state of `SemanticClauseSearch`: the displayed
results and the loading flag. -/
structure SearchClientState where
  results : Option String
  loading : Bool
deriving DecidableEq

/-- One step of the search client (part_002).  A submit with an
empty-after-trim query is ignored; otherwise it sets the loading flag and
lets the request go out.  When any response arrives, the continuation
after `await` runs `setResults(data); setLoading(false)` unconditionally:
the source compares no generation token, so the tag of the request being
answered is never consulted. -/
def stepSearch (st : SearchClientState) (e : SearchEvent) : SearchClientState :=
  match e with
  | .submit q => if jsTrim q = "" then st else { st with loading := true }
  | .respond _ data => { results := some data, loading := false }

/-- Folds a sequence of search events over the component state. -/
def runSearchTrace (st : SearchClientState) : List SearchEvent → SearchClientState
  | [] => st
  | e :: es => runSearchTrace (stepSearch st e) es

/-- Message roles in the chatbot history (part_003 / part_004). -/
inductive Role where
  | user
  | assistant
deriving DecidableEq

/-- A chat message as in the source `Message` interface; the `new Date()`
timestamps are modelled as naturals supplied by the caller. -/
structure Message where
  role : Role
  content : String
  timestamp : Nat
deriving DecidableEq

/-- Parsed body of `POST /api/chat/ask`: the `answer` field may be absent. -/
structure ChatData where
  answer : Option String
deriving DecidableEq

/-- Response to `POST /api/chat/ask`: HTTP ok flag and parsed JSON body
(`none` models the paths on which `fetch` or `response.json()` throws). -/
structure ChatResponse where
  ok : Bool
  json : Option ChatData
deriving DecidableEq

/-- Component state of a chatbot instance: message history, input box
text, loading flag. -/
structure ChatState where
  messages : List Message
  input : String
  loading : Bool
deriving DecidableEq

/-- JS truthiness fallback `a || b` applied to an optional string field:
a missing field and the empty string are both falsy. -/
def jsOrElse (a : Option String) (fallback : String) : String :=
  match a with
  | some s => if s = "" then fallback else s
  | none => fallback

/-- Success-branch fallback used by both chatbots when `data.answer` is
falsy (part_003 line 64, part_004 line 65). -/
def fallbackApology : String := "Sorry, I couldn\x27t process that question."

/-- Catch-branch apology of `DocumentChatbot` (part_003 line 73). -/
def chatErrorApology : String :=
  "Sorry, there was an error processing your question. Please try again."

/-- Catch-branch apology of `FloatingChatbot` (part_004 line 74). -/
def floatErrorApology : String := "Sorry, there was an error. Please try again."

/-- `handleSend` common to `DocumentChatbot` (part_003, lines 35-80) and
`FloatingChatbot` (part_004, lines 36-81); the two differ only in the
catch-branch apology text, passed here as `errorApology`.  A blank input
or a pending ask returns before any request.  Otherwise: the user message
is appended, the input cleared, the request issued with
`document_text: documentText.substring(0, 3000)`, and exactly one
assistant message appended — `data.answer || fallbackApology` when a body
parses, `errorApology` when the call throws — with loading reset in the
`finally`. -/
def handleSendWith (errorApology : String)
    (documentId : String) (documentText : List Char) (analysisSummary : String)
    (st : ChatState) (resp : ChatResponse) (tUser tAssistant : Nat) :
    List Request × ChatState :=
  if jsTrim st.input = "" ∨ st.loading then ([], st)
  else
    let userMessage : Message := ⟨.user, st.input, tUser⟩
    let reply : Message :=
      match resp.json with
      | some data => ⟨.assistant, jsOrElse data.answer fallbackApology, tAssistant⟩
      | none => ⟨.assistant, errorApology, tAssistant⟩
    ([.chat documentId st.input (documentText.take 3000) analysisSummary],
      { messages := st.messages ++ [userMessage, reply]
        input := ""
        loading := false })

/-- `handleSend` of `DocumentChatbot` (part_003). -/
def DocumentChatbot.handleSend := handleSendWith chatErrorApology

/-- `handleSend` of `FloatingChatbot` (part_004). -/
def FloatingChatbot.handleSend := handleSendWith floatErrorApology

/-- `getColorForScore` from `DocumentComparison` (part_001, lines 56-62):
five bands, checked high-to-low with inclusive lower bounds. -/
def getColorForScore (score : ℚ) : String :=
  if 9/10 ≤ score then "from-green-500 to-emerald-600"
  else if 3/4 ≤ score then "from-blue-500 to-cyan-600"
  else if 3/5 ≤ score then "from-yellow-500 to-orange-500"
  else if 2/5 ≤ score then "from-orange-500 to-red-500"
  else "from-red-500 to-pink-600"

/-- `getSimilarityColor` from `SemanticClauseSearch` (part_002, lines
205-210): four bands, checked high-to-low with inclusive lower bounds;
everything below 0.6 falls into the single default band. -/
def getSimilarityColor (sim : ℚ) : String :=
  if 9/10 ≤ sim then "bg-green-100 border-green-400 text-green-800"
  else if 3/4 ≤ sim then "bg-blue-100 border-blue-400 text-blue-800"
  else if 3/5 ≤ sim then "bg-yellow-100 border-yellow-400 text-yellow-800"
  else "bg-gray-100 border-gray-400 text-gray-800"

/-- Band labels paired with the thresholds of `getColorForScore`; the
label text is the interpretation guide rendered by `DocumentComparison`
(part_001, lines 140-144). -/
def interpret (score : ℚ) : String :=
  if 9/10 ≤ score then "Nearly identical documents"
  else if 3/4 ≤ score then "Very similar structure and content"
  else if 3/5 ≤ score then "Moderately similar, same type"
  else if 2/5 ≤ score then "Somewhat similar clauses"
  else "Different documents"

/-- The `risk_matrix` counts consumed by `RiskHeatmap` (part_005). -/
structure RiskMatrix where
  critical : Nat
  high : Nat
  medium : Nat
  low : Nat

/-- `total` from `RiskHeatmap` (part_005, line 28). -/
def RiskMatrix.total (m : RiskMatrix) : Nat :=
  m.critical + m.high + m.medium + m.low

/-- `getPercentage` from `RiskHeatmap` (part_005, lines 30-33): guarded
ratio times 100, with an explicit zero-total branch returning 0. -/
def getPercentage (m : RiskMatrix) (count : Nat) : ℚ :=
  if m.total = 0 then 0 else (count : ℚ) / (m.total : ℚ) * 100

/-- A search match as rendered by `SemanticClauseSearch` (part_002
`ClauseMatch` interface), with the fields the render path reads. -/
structure ClauseMatch where
  clauseType : String
  text : String
  similarity : ℚ
  similarity_percentage : String

/-- Rendering order of the classification entries in
`DocumentClassification.tsx` (lines 105-126): `Object.entries(...)` is
sorted with comparator `([, a], [, b]) => b - a`, i.e. stably by
descending score, before mapping to rows. -/
def displayedClassification (entries : List (String × ℚ)) : List (String × ℚ) :=
  entries.mergeSort (fun p q => decide (q.2 ≤ p.2))

/-- Rendering order of search matches in `SemanticClauseSearch`
(part_002, lines 276-306): `results.matches?.map(...)` renders the
matches in the order the server returned them, with no sort. -/
def displayedMatches (ms : List ClauseMatch) : List ClauseMatch := ms

/-- Response to `GET /api/documents/classify/{id}` as consumed by
`DocumentClassification.tsx`: HTTP ok flag and parsed JSON body, the
payload kept abstract as a string. -/
structure ClassifyResponse where
  ok : Bool
  json : Option String

/-- `fetchClassification` from `DocumentClassification.tsx` (lines
24-37): the parsed body is stored unconditionally — `response.ok` is
never read; on a thrown error the previous state is kept. -/
def fetchClassification (resp : ClassifyResponse)
    (prior : Option String) : Option String :=
  match resp.json with
  | some data => some data
  | none => prior

/-- Response to `POST /api/compare/similarity/{id1}/{id2}` as consumed by
`DocumentComparison` (part_001): HTTP ok flag and parsed JSON body, the
payload kept abstract as a string. -/
structure CompareResponse where
  ok : Bool
  json : Option String

/-- `compareDocuments` from `DocumentComparison` (part_001, lines 27-41):
the parsed body is stored unconditionally — `response.ok` is never read;
on a thrown error the previous state is kept. -/
def compareDocuments (resp : CompareResponse)
    (prior : Option String) : Option String :=
  match resp.json with
  | some data => some data
  | none => prior

/-- Helper: an accepted send (non-blank input, not loading) unfolds to the
issued request and the two appended messages. -/
theorem handleSendWith_accepted (errorApology documentId : String)
    (documentText : List Char) (analysisSummary : String)
    (st : ChatState) (resp : ChatResponse) (tU tA : Nat)
    (hq : jsTrim st.input ≠ "") (hl : st.loading = false) :
    handleSendWith errorApology documentId documentText analysisSummary
        st resp tU tA
      = ([.chat documentId st.input (documentText.take 3000) analysisSummary],
          { messages := st.messages ++
              [⟨.user, st.input, tU⟩,
                ⟨.assistant,
                  (match resp.json with
                    | some data => jsOrElse data.answer fallbackApology
                    | none => errorApology), tA⟩]
            input := ""
            loading := false }) := by
  have hcond : ¬(jsTrim st.input = "" ∨ st.loading = true) := by
    rintro (h | h)
    · exact hq h
    · rw [hl] at h
      cases h
  obtain ⟨ok, json⟩ := resp
  cases json <;>
    · unfold handleSendWith
      rw [if_neg hcond]

/-- Helper: a trace step leaves the accumulated state function
compositional. -/
theorem runSearchTrace_append (st : SearchClientState)
    (es fs : List SearchEvent) :
    runSearchTrace st (es ++ fs) = runSearchTrace (runSearchTrace st es) fs := by
  induction es generalizing st with
  | nil => rfl
  | cons e es ih => simp [runSearchTrace, ih]

/-- C1 counterexample: query A is submitted, then query B; B's response
arrives first, then A's stale response arrives — the displayed result
becomes A's, overwriting B's, because `handleSearch` stores every
arriving payload unconditionally. -/
theorem c1_counterexample :
    (runSearchTrace ⟨none, false⟩
        [.submit "query A", .submit "query B",
         .respond 1 "result B", .respond 0 "result A"]).results
      = some "result A" ∧
    (some "result A" : Option String) ≠ some "result B" := by
  constructor
  · decide
  · decide

/-- C1 amended: the search client implements last-arrival-wins, not
last-submission-wins — after any event trace that ends with the arrival
of a response, the displayed result is that response's payload, whichever
submission it answers. -/
theorem c1_theorem (st : SearchClientState) (pre : List SearchEvent)
    (i : Nat) (d : String) :
    (runSearchTrace st (pre ++ [.respond i d])).results = some d := by
  rw [runSearchTrace_append]
  rfl

/-- C5: band classification is evaluated high-to-low with thresholds
inclusive at the lower bound of each band — the boundary scores 0.90,
0.75, 0.60 and 0.40 fall in the higher band, `interpret 0.90` is the
nearly-identical band, `interpret 0.8999` the very-similar band, and
`interpret 0` the different-documents band. -/
theorem c5_theorem :
    interpret (90/100) = "Nearly identical documents" ∧
    interpret (8999/10000) = "Very similar structure and content" ∧
    interpret 0 = "Different documents" ∧
    interpret (75/100) = "Very similar structure and content" ∧
    interpret (60/100) = "Moderately similar, same type" ∧
    interpret (40/100) = "Somewhat similar clauses" ∧
    getColorForScore (90/100) = "from-green-500 to-emerald-600" ∧
    getColorForScore (75/100) = "from-blue-500 to-cyan-600" ∧
    getColorForScore (60/100) = "from-yellow-500 to-orange-500" ∧
    getColorForScore (40/100) = "from-orange-500 to-red-500" := by
  refine ⟨?_, ?_, ?_, ?_, ?_, ?_, ?_, ?_, ?_, ?_⟩ <;>
    · simp only [interpret, getColorForScore]
      norm_num

/-- C6 counterexample: the comparison view distinguishes the scores 0.5
and 0.3 (somewhat-similar band versus different-documents band), while
the search view puts both in its single default band — so the two
features' band classifications are not extensionally equal. -/
theorem c6_counterexample :
    getSimilarityColor (5/10) = getSimilarityColor (3/10) ∧
    getColorForScore (5/10) ≠ getColorForScore (3/10) := by
  constructor
  · unfold getSimilarityColor
    norm_num
  · unfold getColorForScore
    norm_num
    decide

/-- C6 amended: the two features agree on scores of at least 0.60, where
their three top bands share the thresholds 0.90 and 0.75 — on that range
the classifiers induce the same partition; below 0.60 the comparison view
has an extra band boundary at 0.40 that the search view lacks. -/
theorem c6_theorem (s t : ℚ) (hs : 3/5 ≤ s) (ht : 3/5 ≤ t) :
    getColorForScore s = getColorForScore t ↔
      getSimilarityColor s = getSimilarityColor t := by
  unfold getColorForScore getSimilarityColor
  split_ifs <;> first | decide | linarith

/-- C6 witness at scores 0.95 and 0.80. -/
theorem c6_witness :
    (3/5 : ℚ) ≤ 95/100 ∧ (3/5 : ℚ) ≤ 80/100 ∧
    (getColorForScore (95/100) = getColorForScore (80/100) ↔
      getSimilarityColor (95/100) = getSimilarityColor (80/100)) := by
  refine ⟨by norm_num, by norm_num, c6_theorem _ _ (by norm_num) (by norm_num)⟩

/-- C9: each severity bucket's bar percentage is count divided by the
four-bucket total, times 100; a zero total yields exactly 0, and the
value is always a well-defined rational between 0 and 100 when the count
is one of the bucket counts. -/
theorem c9_theorem (m : RiskMatrix) (count : Nat) :
    (m.total = 0 → getPercentage m count = 0) ∧
    (m.total ≠ 0 → getPercentage m count = (count : ℚ) / (m.total : ℚ) * 100) ∧
    0 ≤ getPercentage m count ∧
    (count ≤ m.total → getPercentage m count ≤ 100) := by
  unfold getPercentage
  by_cases h : m.total = 0
  · simp [h]
  · have hpos : (0 : ℚ) < (m.total : ℚ) := by
      exact_mod_cast Nat.pos_of_ne_zero h
    refine ⟨fun hc => absurd hc h, fun _ => by simp [h], ?_, fun hc => ?_⟩
    · simp only [h, if_false]
      positivity
    · simp only [h, if_false]
      have hcq : (count : ℚ) ≤ (m.total : ℚ) := by exact_mod_cast hc
      calc (count : ℚ) / (m.total : ℚ) * 100
          ≤ 1 * 100 := by
            apply mul_le_mul_of_nonneg_right _ (by norm_num)
            rw [div_le_one hpos]
            exact hcq
        _ = 100 := by norm_num

/-- C9 witness at the zero matrix and at a matrix with total 4. -/
theorem c9_witness :
    ((RiskMatrix.mk 0 0 0 0).total = 0 →
      getPercentage (RiskMatrix.mk 0 0 0 0) 0 = 0) ∧
    ((RiskMatrix.mk 1 1 1 1).total ≠ 0 →
      getPercentage (RiskMatrix.mk 1 1 1 1) 1
        = (1 : ℚ) / ((RiskMatrix.mk 1 1 1 1).total : ℚ) * 100) ∧
    0 ≤ getPercentage (RiskMatrix.mk 1 1 1 1) 1 ∧
    (1 ≤ (RiskMatrix.mk 1 1 1 1).total →
      getPercentage (RiskMatrix.mk 1 1 1 1) 1 ≤ 100) := by
  refine ⟨fun _ => (c9_theorem (RiskMatrix.mk 0 0 0 0) 0).1 rfl, ?_, ?_, ?_⟩
  · exact (c9_theorem (RiskMatrix.mk 1 1 1 1) 1).2.1
  · exact (c9_theorem (RiskMatrix.mk 1 1 1 1) 1).2.2.1
  · exact (c9_theorem (RiskMatrix.mk 1 1 1 1) 1).2.2.2

/-- C10: the classification view re-sorts its entries into descending
order of score client-side (the displayed list is a permutation of the
payload, pairwise descending), while search matches are rendered exactly
in server order. -/
theorem c10_theorem (entries : List (String × ℚ)) (ms : List ClauseMatch) :
    (displayedClassification entries).Pairwise (fun p q => q.2 ≤ p.2) ∧
    (displayedClassification entries).Perm entries ∧
    displayedMatches ms = ms := by
  refine ⟨?_, List.mergeSort_perm entries _, rfl⟩
  have h : (entries.mergeSort (fun p q : String × ℚ => decide (q.2 ≤ p.2))).Pairwise
      (fun p q : String × ℚ => decide (q.2 ≤ p.2) = true) :=
    List.sorted_mergeSort
      (fun a b c hab hbc => by
        simp only [decide_eq_true_eq] at *
        exact le_trans hbc hab)
      (fun a b => by
        simp only [Bool.or_eq_true, decide_eq_true_eq]
        exact le_total b.2 a.2)
      entries
  exact h.imp (fun hab => by simpa using hab)

/-- C2: an analyze request can appear in a workflow's request list only
when the upload response was ok, it is keyed by exactly the document id
that response carried, and the request list is then precisely the upload
followed by that analyze — in particular a failed upload issues no
analyze request. -/
theorem c2_theorem (file : Option String) (u : UploadResponse)
    (a : AnalyzeResponse) (d : String)
    (hd : Request.analyze d ∈ (handleUploadAndAnalyze file u a).1) :
    u.ok = true ∧ d = u.document_id ∧
      ∃ f, file = some f ∧
        (handleUploadAndAnalyze file u a).1
          = [Request.upload f, Request.analyze u.document_id] := by
  cases file with
  | none => simp [handleUploadAndAnalyze] at hd
  | some f =>
    cases hu : u.ok with
    | false => simp [handleUploadAndAnalyze, hu] at hd
    | true =>
      cases ha : a.ok with
      | false =>
        simp only [handleUploadAndAnalyze, hu, if_neg, if_pos,
          Bool.true_eq_false, if_false, ha, List.mem_cons,
          List.mem_singleton, List.not_mem_nil, or_false] at hd
        rcases hd with hd | hd
        · cases hd
        · cases hd
          exact ⟨rfl, rfl, f, rfl, by simp [handleUploadAndAnalyze, hu, ha]⟩
      | true =>
        simp only [handleUploadAndAnalyze, hu, Bool.true_eq_false, if_false,
          ha, List.mem_cons, List.mem_singleton, List.not_mem_nil,
          or_false] at hd
        rcases hd with hd | hd
        · cases hd
        · cases hd
          exact ⟨rfl, rfl, f, rfl, by simp [handleUploadAndAnalyze, hu, ha]⟩

/-- C2 witness: a successful upload of `contract.pdf` returning
`doc-001` leads to an analyze request keyed by `doc-001`. -/
theorem c2_witness :
    Request.analyze "doc-001" ∈
      (handleUploadAndAnalyze (some "contract.pdf")
        ⟨true, "doc-001"⟩ ⟨true, "", "payload"⟩).1 ∧
    ((⟨true, "doc-001"⟩ : UploadResponse).ok = true ∧
      "doc-001" = (⟨true, "doc-001"⟩ : UploadResponse).document_id ∧
      ∃ f, (some "contract.pdf" : Option String) = some f ∧
        (handleUploadAndAnalyze (some "contract.pdf")
            ⟨true, "doc-001"⟩ ⟨true, "", "payload"⟩).1
          = [Request.upload f, Request.analyze "doc-001"]) := by
  refine ⟨by decide, c2_theorem _ _ _ _ (by decide)⟩

/-- C3: an accepted ask (non-blank question, no ask pending) extends the
history by exactly the user message followed by one assistant reply —
the returned answer when a body with a truthy answer parses, the fixed
apology otherwise — so the history is append-only and grows by exactly
two messages. -/
theorem c3_theorem (errorApology documentId : String)
    (documentText : List Char) (analysisSummary : String)
    (st : ChatState) (resp : ChatResponse) (tU tA : Nat)
    (hq : jsTrim st.input ≠ "") (hl : st.loading = false) :
    (handleSendWith errorApology documentId documentText analysisSummary
        st resp tU tA).2.messages
      = st.messages ++
        [⟨.user, st.input, tU⟩,
          ⟨.assistant,
            (match resp.json with
              | some data => jsOrElse data.answer fallbackApology
              | none => errorApology), tA⟩] ∧
    (handleSendWith errorApology documentId documentText analysisSummary
        st resp tU tA).2.messages.length = st.messages.length + 2 := by
  rw [handleSendWith_accepted errorApology documentId documentText
    analysisSummary st resp tU tA hq hl]
  exact ⟨rfl, by simp⟩

/-- C3 witness: a concrete accepted ask with a successful answer grows an
empty history to the user message plus the answer. -/
theorem c3_witness :
    (jsTrim "What are the risks?" ≠ "") ∧
    ((handleSendWith chatErrorApology "doc-001" [] ""
        ⟨[], "What are the risks?", false⟩
        ⟨true, some ⟨some "Mainly clause 7."⟩⟩ 0 1).2.messages
      = [⟨.user, "What are the risks?", 0⟩,
          ⟨.assistant, "Mainly clause 7.", 1⟩] ∧
     (handleSendWith chatErrorApology "doc-001" [] ""
        ⟨[], "What are the risks?", false⟩
        ⟨true, some ⟨some "Mainly clause 7."⟩⟩ 0 1).2.messages.length
      = 0 + 2) := by
  refine ⟨by decide, ?_⟩
  exact c3_theorem chatErrorApology "doc-001" [] ""
    ⟨[], "What are the risks?", false⟩
    ⟨true, some ⟨some "Mainly clause 7."⟩⟩ 0 1 (by decide) rfl

/-- C4: each validation guard rejects before the network — a missing
file fails with the validation error message and issues no request; an
empty-after-trim search query and a blank-or-pending ask both return with
no request and no state change. -/
theorem c4_theorem :
    (∀ u a, handleUploadAndAnalyze none u a
        = ([], .validationError "Please select a file")) ∧
    (∀ documentId query resp prior, jsTrim query = "" →
        handleSearch documentId query resp prior = ([], prior)) ∧
    (∀ e d t s (st : ChatState) resp tU tA,
        jsTrim st.input = "" ∨ st.loading = true →
        handleSendWith e d t s st resp tU tA = ([], st)) := by
  refine ⟨fun u a => rfl, fun documentId query resp prior h => ?_,
    fun e d t s st resp tU tA h => ?_⟩
  · unfold handleSearch
    rw [if_pos h]
  · unfold handleSendWith
    rw [if_pos h]

/-- C4 witness: the three guards fire on a missing file, a whitespace
query, and an ask submitted while one is pending. -/
theorem c4_witness :
    handleUploadAndAnalyze none ⟨true, "doc-001"⟩ ⟨true, "", ""⟩
        = ([], .validationError "Please select a file") ∧
    (jsTrim "  " = "" ∧
      handleSearch "doc-001" "  " ⟨true, none⟩ none = ([], none)) ∧
    ((jsTrim "Why?" = "" ∨ true = true) ∧
      handleSendWith chatErrorApology "doc-001" [] ""
          ⟨[], "Why?", true⟩ ⟨true, none⟩ 0 1
        = ([], ⟨[], "Why?", true⟩)) := by
  refine ⟨c4_theorem.1 _ _, ⟨by decide, ?_⟩, ⟨Or.inr rfl, ?_⟩⟩
  · exact c4_theorem.2.1 "doc-001" "  " ⟨true, none⟩ none (by decide)
  · exact c4_theorem.2.2 chatErrorApology "doc-001" [] ""
      ⟨[], "Why?", true⟩ ⟨true, none⟩ 0 1 (Or.inr rfl)

/-- C7 counterexample: a search response with a non-2xx status but a
parsable body is stored and displayed as a successful result, and a chat
response with a non-2xx status but an `answer` field is appended to the
history as a genuine assistant answer — neither handler ever reads the
status flag. -/
theorem c7_counterexample :
    (handleSearch "doc-001" "payment within 30 days"
        ⟨false, some "matches-body"⟩ none).2 = some "matches-body" ∧
    (handleSearch "doc-001" "payment within 30 days"
        ⟨false, some "matches-body"⟩ none).1
      = [Request.search "doc-001" "payment within 30 days"] ∧
    (DocumentChatbot.handleSend "doc-001" [] ""
        ⟨[], "What are the risks?", false⟩
        ⟨false, some ⟨some "fabricated answer"⟩⟩ 0 1).2.messages
      = [⟨.user, "What are the risks?", 0⟩,
          ⟨.assistant, "fabricated answer", 1⟩] := by
  refine ⟨?_, ?_, ?_⟩ <;> decide

/-- C7 amended: only the upload and analyze calls treat a non-2xx status
as a failure (upload without reading the body, analyze surfacing the body
text verbatim in the error); the search, chat, classify and compare
handlers never read the status — their behavior is a function of the
parsed body alone, identical for ok and non-ok responses. -/
theorem c7_theorem :
    (∀ f u a, u.ok = false →
        (handleUploadAndAnalyze (some f) u a).2 = .failed "Upload failed") ∧
    (∀ f (u : UploadResponse) a, u.ok = true → a.ok = false →
        (handleUploadAndAnalyze (some f) u a).2
          = .failed ("Analysis failed: " ++ a.text)) ∧
    (∀ documentId query j prior,
        handleSearch documentId query ⟨true, j⟩ prior
          = handleSearch documentId query ⟨false, j⟩ prior) ∧
    (∀ e d t s st j tU tA,
        handleSendWith e d t s st ⟨true, j⟩ tU tA
          = handleSendWith e d t s st ⟨false, j⟩ tU tA) ∧
    (∀ j prior, fetchClassification ⟨true, j⟩ prior
        = fetchClassification ⟨false, j⟩ prior) ∧
    (∀ j prior, compareDocuments ⟨true, j⟩ prior
        = compareDocuments ⟨false, j⟩ prior) := by
  refine ⟨?_, ?_, fun _ _ _ _ => rfl, fun _ _ _ _ _ _ _ _ => rfl,
    fun _ _ => rfl, fun _ _ => rfl⟩
  · intro f u a hu
    simp [handleUploadAndAnalyze, hu]
  · intro f u a hu ha
    simp [handleUploadAndAnalyze, hu, ha]

/-- C7 witness: a failed upload, a failed analyze surfacing its body
text, and a status-blind search call. -/
theorem c7_witness :
    (handleUploadAndAnalyze (some "contract.pdf")
        ⟨false, "x"⟩ ⟨true, "", ""⟩).2 = .failed "Upload failed" ∧
    (handleUploadAndAnalyze (some "contract.pdf") ⟨true, "doc-001"⟩
        ⟨false, "embeddings missing", ""⟩).2
      = .failed ("Analysis failed: " ++ "embeddings missing") ∧
    handleSearch "doc-001" "q" ⟨true, some "r"⟩ none
      = handleSearch "doc-001" "q" ⟨false, some "r"⟩ none := by
  exact ⟨c7_theorem.1 "contract.pdf" ⟨false, "x"⟩ ⟨true, "", ""⟩ rfl,
    c7_theorem.2.1 "contract.pdf" ⟨true, "doc-001"⟩
      ⟨false, "embeddings missing", ""⟩ rfl rfl,
    c7_theorem.2.2.1 "doc-001" "q" (some "r") none⟩

/-- C8: every accepted ask issues exactly one chat request whose
`document_text` field is the fixed-length 3000-unit prefix of the
document text — a deterministic function of the document text alone —
and equals the whole text when the text is no longer than 3000 units. -/
theorem c8_theorem (errorApology documentId : String)
    (documentText : List Char) (analysisSummary : String)
    (st : ChatState) (resp : ChatResponse) (tU tA : Nat)
    (hq : jsTrim st.input ≠ "") (hl : st.loading = false) :
    (handleSendWith errorApology documentId documentText analysisSummary
        st resp tU tA).1
      = [Request.chat documentId st.input (documentText.take 3000)
          analysisSummary] ∧
    (documentText.length ≤ 3000 → documentText.take 3000 = documentText) := by
  rw [handleSendWith_accepted errorApology documentId documentText
    analysisSummary st resp tU tA hq hl]
  exact ⟨rfl, fun h => List.take_of_length_le h⟩

/-- C8 witness: a two-character document is sent whole as the
`document_text` field. -/
theorem c8_witness :
    (jsTrim "What are the risks?" ≠ "") ∧
    ((handleSendWith chatErrorApology "doc-001" ['x'] "summary"
        ⟨[], "What are the risks?", false⟩ ⟨true, some ⟨some "ok"⟩⟩ 0 1).1
      = [Request.chat "doc-001" "What are the risks?"
          (['x'].take 3000) "summary"] ∧
     ((['x'] : List Char).length ≤ 3000 →
        (['x'] : List Char).take 3000 = ['x'])) := by
  refine ⟨by decide, ?_⟩
  exact c8_theorem chatErrorApology "doc-001" ['x'] "summary"
    ⟨[], "What are the risks?", false⟩ ⟨true, some ⟨some "ok"⟩⟩ 0 1
    (by decide) rfl

end LegalAnalyser
